import Mathlib

/-!
Shallow embedding of `xzwriter` (src/xzwriter.go): a `WriteCloser` that pipes
bytes through an external `xz` compressor subprocess.

The package state (stdin pipe, subprocess, pending runtime finalizer,
destination writer) is modeled as an explicit `World` record threaded through
the operations, together with a ghost trace of observable events.  Fallible
library calls (`os.Pipe` creation inside `StdinPipe`, executable lookup
surfaced by `Start`, underlying pipe I/O) are modeled by explicit environment
flags and fault fields.  A Go `panic` is modeled as `Except.error` carrying the
panic message and the world at the moment of the panic.
-/

namespace XZW

/-- A stack frame as reported by `runtime.Caller`: source file and line. -/
abbrev Frame := String × Nat

/-- Errors returned by the modeled Go library operations. -/
inductive GoError where
  /-- `os.Pipe` failure inside `(*exec.Cmd).StdinPipe`. -/
  | pipeCreate
  /-- `exec.LookPath` failure ("xz" not in `$PATH`), surfaced by `Start`. -/
  | execNotFound
  /-- `os.ErrClosed`: operation on an already-closed file. -/
  | fileAlreadyClosed
  /-- `(*exec.Cmd).Wait` error for a process killed by a signal. -/
  | waitSignalKilled
  /-- `(*exec.Cmd).Wait` error for a nonzero exit status. -/
  | waitExit (code : Nat)
  /-- An arbitrary underlying I/O fault (e.g. `EPIPE`), tagged by a code. -/
  | ioErr (n : Nat)
  deriving DecidableEq, Repr

/-- Models `context.Context` as far as this package observes it: the value
stored under `blankContextDiscriminatorKey(0)`, if any. -/
structure Ctx where
  blankDiscriminator : Option Bool
  deriving DecidableEq, Repr

/-- Embeds `blankContext` (src/xzwriter.go:114): `context.Background()` with the
discriminator value set to `true`. -/
def blankContext : Ctx := { blankDiscriminator := some true }

/-- A plain `context.Background()`-like context carrying no discriminator. -/
def background : Ctx := { blankDiscriminator := none }

/-- Embeds `calledByNew` (src/xzwriter.go:104-107):
`v, ok := ctx.Value(blankContextDiscriminatorKey(0)).(bool); return ok && v`. -/
def calledByNew (ctx : Ctx) : Bool :=
  match ctx.blankDiscriminator with
  | some v => v
  | none => false

/-- Ghost trace of the observable operations the sink performs. -/
inductive Event where
  /-- `StdinPipe` created the stdin pipe. -/
  | stdinPipeCreate
  /-- `cmd.Start()` started the subprocess. -/
  | cmdStart
  /-- `runtime.SetFinalizer(xz, f)` registered the leak watch for a site. -/
  | setFinal (file : String) (line : Nat)
  /-- `runtime.SetFinalizer(xz, nil)` cleared the leak watch. -/
  | clearFinal
  /-- `xz.pipe.Write(p)` was invoked. -/
  | pipeWrite (p : List Nat)
  /-- `xz.pipe.Close()` was invoked. -/
  | pipeClose
  /-- `xz.cmd.Wait()` was invoked. -/
  | cmdWait
  /-- The destination writer `w` was closed (never emitted by this package). -/
  | destClose
  /-- The context watchdog killed the subprocess. -/
  | processKill
  deriving DecidableEq, Repr

/-- Embeds the relevant fields of `exec.Cmd` as configured by this package. -/
structure Cmd where
  path : String
  args : List String
  /-- Identity of the writer bound as the process stdout, if any. -/
  stdout : Option Nat
  ctx : Ctx
  deriving DecidableEq, Repr

/-- Embeds `exec.CommandContext(ctx, name, arg...)`. -/
def commandContext (ctx : Ctx) (name : String) (args : List String) : Cmd :=
  { path := name, args := args, stdout := none, ctx := ctx }

/-- Embeds the `XZWriter` struct (src/xzwriter.go:33-36); the pipe state lives
in `World`. -/
structure XZWriter where
  cmd : Cmd
  deriving DecidableEq, Repr

/-- The package-observable state, threaded explicitly. -/
structure World where
  /-- Whether the stdin pipe is open. -/
  pipeOpen : Bool
  /-- Bytes accepted into the stdin pipe so far (what the compressor reads). -/
  pipeBuf : List Nat
  /-- Whether the subprocess is currently running. -/
  processRunning : Bool
  /-- The abnormal-exit error `Wait` will report, if any (`none` = clean exit). -/
  procExit : Option GoError
  /-- Pending `runtime` finalizer for the sink, carrying the recorded site. -/
  finalizer : Option Frame
  /-- Whether the caller-supplied destination writer has been closed. -/
  destClosed : Bool
  /-- Underlying I/O fault hit when transferring bytes into the pipe, if any. -/
  writeFault : Option GoError
  /-- Underlying I/O fault hit when closing the open pipe, if any. -/
  closeFault : Option GoError
  /-- Ghost trace of events. -/
  events : List Event
  deriving DecidableEq, Repr

/-- The world before any sink exists. -/
def World.init : World :=
  { pipeOpen := false, pipeBuf := [], processRunning := false, procExit := none,
    finalizer := none, destClosed := false, writeFault := none,
    closeFault := none, events := [] }

/-- Models `(*exec.Cmd).StdinPipe` (src/xzwriter.go:60): creates the stdin
pipe; `ok` is whether the underlying `os.Pipe` call succeeds. -/
def stdinPipeOp (ok : Bool) (s : World) : Option GoError × World :=
  if ok then
    (none, { s with pipeOpen := true, events := s.events ++ [.stdinPipeCreate] })
  else
    (some .pipeCreate, s)

/-- Models `(*exec.Cmd).Start` (src/xzwriter.go:65): fails when the executable
could not be located; otherwise the subprocess starts running. -/
def startOp (xzInPath : Bool) (s : World) : Option GoError × World :=
  if xzInPath then
    (none, { s with processRunning := true, events := s.events ++ [.cmdStart] })
  else
    (some .execNotFound, s)

/-- Models `runtime.Caller(skip)` over an explicit stack (index 0 = the frame
making the call): returns the frame, or `("", 0)` when out of range. -/
def runtimeCaller (skip : Nat) (stack : List Frame) : Frame :=
  (stack.get? skip).getD ("", 0)

/-- The finalizer panic message,
`fmt.Errorf("xzwriter created at %s:%d, but never canceled", file, line)`. -/
def finalizerMsg (file : String) (line : Nat) : String :=
  "xzwriter created at " ++ file ++ ":" ++ toString line ++ ", but never canceled"

/-- The frame of the `runtime.Caller` call site itself (src/xzwriter.go:96). -/
def frameCallerSite : Frame := ("xzwriter.go", 96)

/-- The frame inside `NewWithContext` calling the activation (src/xzwriter.go:70). -/
def frameNewWithContext : Frame := ("xzwriter.go", 70)

/-- The frame inside `New` calling `NewWithContext` (src/xzwriter.go:40). -/
def frameNew : Frame := ("xzwriter.go", 40)

/-- Embeds `activateSharpEdgedFinalizer` (src/xzwriter.go:91-100).  `stack` is
the full call stack at the `runtime.Caller` call.  Registers a finalizer that
panics with the recorded site. -/
def activateSharpEdgedFinalizer (ctx : Ctx) (stack : List Frame) (s : World) : World :=
  let skip := if calledByNew ctx then 3 else 2
  let fr := runtimeCaller skip stack
  { s with finalizer := some fr, events := s.events ++ [.setFinal fr.1 fr.2] }

/-- Embeds `deactivateSharpEdgedFinalizer` (src/xzwriter.go:102):
`runtime.SetFinalizer(xz, nil)`. -/
def deactivateSharpEdgedFinalizer (s : World) : World :=
  { s with finalizer := none, events := s.events ++ [.clearFinal] }

/-- Embeds `NewWithContext` (src/xzwriter.go:49-72).  `pipeOk` and `xzInPath`
model the two fallible library calls; `callers` is the stack above
`NewWithContext` (head = the frame containing the call to it); `w` identifies
the destination writer.  A nil context panics (`Except.error`), carrying the
unchanged world. -/
def NewWithContext (pipeOk xzInPath : Bool) (callers : List Frame)
    (ctx : Option Ctx) (w : Nat) (s : World) :
    Except (String × World) ((Option XZWriter × Option GoError) × World) :=
  match ctx with
  | none => .error ("nil Context", s)
  | some c =>
    let cmd0 := commandContext c "xz" ["--quiet", "--compress", "--stdout", "--best", "-"]
    let cmd : Cmd := { cmd0 with stdout := some w }
    match stdinPipeOp pipeOk s with
    | (some e, s1) => .ok ((none, some e), s1)
    | (none, s1) =>
      match startOp xzInPath s1 with
      | (some e, s2) => .ok ((none, some e), s2)
      | (none, s2) =>
        let s3 := activateSharpEdgedFinalizer c
          (frameCallerSite :: frameNewWithContext :: callers) s2
        .ok ((some { cmd := cmd }, none), s3)

/-- Embeds `New` (src/xzwriter.go:39-41): delegates to `NewWithContext` with
`blankContext`, pushing its own stack frame. -/
def New (pipeOk xzInPath : Bool) (callers : List Frame) (w : Nat) (s : World) :
    Except (String × World) ((Option XZWriter × Option GoError) × World) :=
  NewWithContext pipeOk xzInPath (frameNew :: callers) (some blankContext) w s

/-- Models `Write` on the stdin pipe end of an OS pipe: a write on a closed
file fails with `os.ErrClosed`; a zero-byte write on an open pipe returns
before touching the channel; otherwise a pending underlying fault is reported,
or the bytes are accepted in full. -/
def pipeWriteOp (p : List Nat) (s : World) : (Nat × Option GoError) × World :=
  if s.pipeOpen then
    if p.isEmpty then
      ((0, none), { s with events := s.events ++ [.pipeWrite p] })
    else
      match s.writeFault with
      | some e => ((0, some e), { s with events := s.events ++ [.pipeWrite p] })
      | none =>
          ((p.length, none),
           { s with pipeBuf := s.pipeBuf ++ p, events := s.events ++ [.pipeWrite p] })
  else
    ((0, some .fileAlreadyClosed), { s with events := s.events ++ [.pipeWrite p] })

/-- Embeds `Write` (src/xzwriter.go:75-77): `return xz.pipe.Write(p)`. -/
def Write (p : List Nat) (s : World) : (Nat × Option GoError) × World :=
  pipeWriteOp p s

/-- Models `Close` on the stdin pipe end: closing an open pipe reports a
pending underlying fault, if any; closing an already-closed file reports
`os.ErrClosed`. -/
def pipeCloseOp (s : World) : Option GoError × World :=
  if s.pipeOpen then
    (s.closeFault, { s with pipeOpen := false, events := s.events ++ [.pipeClose] })
  else
    (some .fileAlreadyClosed, { s with events := s.events ++ [.pipeClose] })

/-- Models `(*exec.Cmd).Wait` (src/xzwriter.go:83): reaps the subprocess and
reports its exit error, if any. -/
def cmdWaitOp (s : World) : Option GoError × World :=
  (s.procExit, { s with processRunning := false, events := s.events ++ [.cmdWait] })

/-- Embeds `Close` (src/xzwriter.go:80-88). -/
def Close (s : World) : Option GoError × World :=
  let s0 := deactivateSharpEdgedFinalizer s
  let r1 := pipeCloseOp s0
  let r2 := cmdWaitOp r1.2
  (match r1.1 with
   | some e => some e
   | none => r2.1, r2.2)

/-- Models the watchdog goroutine installed by `exec.CommandContext`: when the
context fires while the process runs, it kills the process; a later `Wait`
then reports the signal-kill error. -/
def contextCancelKill (s : World) : World :=
  if s.processRunning then
    { s with processRunning := false, procExit := some .waitSignalKilled,
             events := s.events ++ [.processKill] }
  else s

/-- Models garbage collection of an unreachable sink: the runtime runs a
registered finalizer at most once; the one this package registers panics with
the recorded creation site.  Returns the panic message, if one fired. -/
def collectSink (s : World) : Option String × World :=
  match s.finalizer with
  | some fr => (some (finalizerMsg fr.1 fr.2), { s with finalizer := none })
  | none => (none, s)

/-! Helper lemmas about the modeled library operations. -/

theorem pipeCloseOp_events (s : World) :
    (pipeCloseOp s).2.events = s.events ++ [Event.pipeClose] := by
  unfold pipeCloseOp; split <;> rfl

theorem cmdWaitOp_events (s : World) :
    (cmdWaitOp s).2.events = s.events ++ [Event.cmdWait] := rfl

theorem pipeWriteOp_events (p : List Nat) (s : World) :
    (pipeWriteOp p s).2.events = s.events ++ [Event.pipeWrite p] := by
  unfold pipeWriteOp
  split
  · split
    · rfl
    · split <;> rfl
  · rfl

theorem pipeCloseOp_finalizer (s : World) :
    (pipeCloseOp s).2.finalizer = s.finalizer := by
  unfold pipeCloseOp; split <;> rfl

theorem cmdWaitOp_finalizer (s : World) :
    (cmdWaitOp s).2.finalizer = s.finalizer := rfl

theorem pipeCloseOp_procExit (s : World) :
    (pipeCloseOp s).2.procExit = s.procExit := by
  unfold pipeCloseOp; split <;> rfl

theorem cmdWaitOp_fst (s : World) : (cmdWaitOp s).1 = s.procExit := rfl

theorem pipeCloseOp_pipeOpen (s : World) :
    (pipeCloseOp s).2.pipeOpen = false := by
  cases hb : s.pipeOpen <;> simp [pipeCloseOp, hb]

theorem cmdWaitOp_pipeOpen (s : World) :
    (cmdWaitOp s).2.pipeOpen = s.pipeOpen := rfl

theorem cmdWaitOp_processRunning (s : World) :
    (cmdWaitOp s).2.processRunning = false := rfl

theorem pipeCloseOp_destClosed (s : World) :
    (pipeCloseOp s).2.destClosed = s.destClosed := by
  unfold pipeCloseOp; split <;> rfl

theorem cmdWaitOp_destClosed (s : World) :
    (cmdWaitOp s).2.destClosed = s.destClosed := rfl

theorem pipeWriteOp_destClosed (p : List Nat) (s : World) :
    (pipeWriteOp p s).2.destClosed = s.destClosed := by
  unfold pipeWriteOp
  split
  · split
    · rfl
    · split <;> rfl
  · rfl

/-! Sample worlds used by the witness theorems. -/

/-- An open sink: pipe open, process running, no pending faults. -/
def openWorld : World :=
  { World.init with pipeOpen := true, processRunning := true }

/-- A world in which both cleanup steps of `Close` report errors: the open
pipe's close hits an underlying fault and the process exited nonzero. -/
def bothErrWorld : World :=
  { World.init with
    pipeOpen := true, processRunning := true,
    closeFault := some (GoError.ioErr 3), procExit := some (GoError.waitExit 1) }

/-- C1: `Close` unconditionally performs both cleanup steps — the pipe close
and the process wait both appear in the trace, the pipe ends closed and the
process reaped — and when the pipe close reports an error that error is
returned (even if the wait also errored); the wait error is returned only
when the pipe closed without error. -/
theorem close_performs_both_steps_prefers_pipe_error (s : World) :
    (Close s).2.events
      = s.events ++ [Event.clearFinal, Event.pipeClose, Event.cmdWait] ∧
    (Close s).2.pipeOpen = false ∧
    (Close s).2.processRunning = false ∧
    (∀ e, (pipeCloseOp (deactivateSharpEdgedFinalizer s)).1 = some e →
      (Close s).1 = some e) ∧
    ((pipeCloseOp (deactivateSharpEdgedFinalizer s)).1 = none →
      (Close s).1 = s.procExit) := by
  refine ⟨?_, ?_, ?_, ?_, ?_⟩
  · show (cmdWaitOp (pipeCloseOp (deactivateSharpEdgedFinalizer s)).2).2.events = _
    rw [cmdWaitOp_events, pipeCloseOp_events]
    simp [deactivateSharpEdgedFinalizer]
  · show (cmdWaitOp (pipeCloseOp (deactivateSharpEdgedFinalizer s)).2).2.pipeOpen = false
    rw [cmdWaitOp_pipeOpen, pipeCloseOp_pipeOpen]
  · exact cmdWaitOp_processRunning _
  · intro e he
    show (match (pipeCloseOp (deactivateSharpEdgedFinalizer s)).1 with
      | some e => some e
      | none => (cmdWaitOp (pipeCloseOp (deactivateSharpEdgedFinalizer s)).2).1) = some e
    rw [he]
  · intro h
    show (match (pipeCloseOp (deactivateSharpEdgedFinalizer s)).1 with
      | some e => some e
      | none => (cmdWaitOp (pipeCloseOp (deactivateSharpEdgedFinalizer s)).2).1) = s.procExit
    rw [h, cmdWaitOp_fst, pipeCloseOp_procExit]
    rfl

/-- Witness for C1 at a concrete world where both steps error: the pipe-close
fault wins and both step events are in the trace. -/
theorem close_performs_both_steps_prefers_pipe_error_witness :
    (Close bothErrWorld).1 = some (GoError.ioErr 3) ∧
    (Close bothErrWorld).2.events
      = [Event.clearFinal, Event.pipeClose, Event.cmdWait] := by
  refine ⟨(close_performs_both_steps_prefers_pipe_error bothErrWorld).2.2.2.1
      (GoError.ioErr 3) (by rfl), ?_⟩
  have h := (close_performs_both_steps_prefers_pipe_error bothErrWorld).1
  simpa using h

/-- C6: `Close` deactivates the abandonment watch as its very first step: the
finalizer is already gone after that first step, the `clearFinal` event
precedes `pipeClose` and `cmdWait` in the trace, and after `Close` no
finalizer is pending, so collecting the sink fires no diagnostic. -/
theorem close_deactivates_watch_first (s : World) :
    (deactivateSharpEdgedFinalizer s).finalizer = none ∧
    (Close s).2.events
      = ((s.events ++ [Event.clearFinal]) ++ [Event.pipeClose]) ++ [Event.cmdWait] ∧
    (Close s).2.finalizer = none ∧
    (collectSink (Close s).2).1 = none := by
  have hfin : (Close s).2.finalizer = none := by
    show (cmdWaitOp (pipeCloseOp (deactivateSharpEdgedFinalizer s)).2).2.finalizer = none
    rw [cmdWaitOp_finalizer, pipeCloseOp_finalizer]
    rfl
  refine ⟨rfl, ?_, hfin, ?_⟩
  · show (cmdWaitOp (pipeCloseOp (deactivateSharpEdgedFinalizer s)).2).2.events = _
    rw [cmdWaitOp_events, pipeCloseOp_events]
    rfl
  · simp [collectSink, hfin]

/-- C4: on an open sink, a zero-length write succeeds with count 0 and no
error and leaves the byte stream fed to the compressor — and hence the output
produced on the destination — unchanged; the destination writer state is
untouched. -/
theorem write_empty_is_noop (s : World) (hopen : s.pipeOpen = true) :
    (Write [] s).1 = (0, none) ∧
    (Write [] s).2.pipeBuf = s.pipeBuf ∧
    (Write [] s).2.destClosed = s.destClosed := by
  refine ⟨?_, ?_, ?_⟩ <;> simp [Write, pipeWriteOp, hopen]

/-- Witness for C4 on a concrete open sink. -/
theorem write_empty_is_noop_witness :
    openWorld.pipeOpen = true ∧ (Write [] openWorld).1 = (0, none) ∧
    (Write [] openWorld).2.pipeBuf = openWorld.pipeBuf :=
  ⟨rfl, (write_empty_is_noop openWorld rfl).1, (write_empty_is_noop openWorld rfl).2.1⟩

/-- C5: `Write` forwards the bytes into the subprocess input pipe and returns
exactly the pipe write's result: the result pair and resulting world coincide
with the pipe write's; on an open pipe with no underlying fault all bytes are
accepted into the pipe; an underlying I/O fault `e` is propagated verbatim;
on a closed pipe the close error is propagated. -/
theorem write_forwards_to_pipe_verbatim (p : List Nat) (s : World) :
    Write p s = pipeWriteOp p s ∧
    (s.pipeOpen = true → s.writeFault = none →
      (Write p s).1 = (p.length, none) ∧ (Write p s).2.pipeBuf = s.pipeBuf ++ p) ∧
    (∀ e, s.pipeOpen = true → p ≠ [] → s.writeFault = some e →
      (Write p s).1 = (0, some e)) ∧
    (s.pipeOpen = false → (Write p s).1 = (0, some GoError.fileAlreadyClosed)) := by
  refine ⟨rfl, ?_, ?_, ?_⟩
  · intro h1 h2
    cases p with
    | nil => simp [Write, pipeWriteOp, h1, h2]
    | cons a t => simp [Write, pipeWriteOp, h1, h2]
  · intro e h1 hp hf
    cases p with
    | nil => exact absurd rfl hp
    | cons a t => simp [Write, pipeWriteOp, h1, hf]
  · intro h
    simp [Write, pipeWriteOp, h]

/-- Witness for C5: a two-byte write on a concrete open sink is accepted in
full and lands in the pipe buffer. -/
theorem write_forwards_to_pipe_verbatim_witness :
    (Write [1, 2] openWorld).1 = (2, none) ∧
    (Write [1, 2] openWorld).2.pipeBuf = [1, 2] := by
  have h := (write_forwards_to_pipe_verbatim [1, 2] openWorld).2.1 rfl rfl
  exact ⟨h.1, by simpa using h.2⟩

/-- C7: if the context fires while the sink is open, the watchdog terminates
the subprocess, and the subsequent `Close` still returns (it is a total
function of the state), reporting the error wrapping the process's abnormal
exit by signal. -/
theorem cancel_then_close_returns_abnormal_exit (s : World)
    (hrun : s.processRunning = true) (hopen : s.pipeOpen = true)
    (hcf : s.closeFault = none) :
    (contextCancelKill s).processRunning = false ∧
    (Close (contextCancelKill s)).1 = some GoError.waitSignalKilled := by
  constructor
  · simp [contextCancelKill, hrun]
  · simp [Close, contextCancelKill, deactivateSharpEdgedFinalizer, pipeCloseOp,
      cmdWaitOp, hrun, hopen, hcf]

/-- Witness for C7 on a concrete open sink. -/
theorem cancel_then_close_returns_abnormal_exit_witness :
    (contextCancelKill openWorld).processRunning = false ∧
    (Close (contextCancelKill openWorld)).1 = some GoError.waitSignalKilled :=
  cancel_then_close_returns_abnormal_exit openWorld rfl rfl rfl

/-- Trace of a full `Close`: watch deactivation, then pipe close, then wait. -/
theorem close_events (s : World) :
    (Close s).2.events
      = s.events ++ [Event.clearFinal, Event.pipeClose, Event.cmdWait] := by
  show (cmdWaitOp (pipeCloseOp (deactivateSharpEdgedFinalizer s)).2).2.events = _
  rw [cmdWaitOp_events, pipeCloseOp_events]
  simp [deactivateSharpEdgedFinalizer]

/-- The command configuration built by `NewWithContext` (src/xzwriter.go:57-59)
for destination writer `w` and context `c`. -/
def fixedCmd (w : Nat) (c : Ctx) : Cmd :=
  { path := "xz", args := ["--quiet", "--compress", "--stdout", "--best", "-"],
    stdout := some w, ctx := c }

/-- Inversion on the three possible outcomes of `NewWithContext` with a
non-nil context: pipe-creation failure, start failure, or success with the
fixed command and an activated finalizer. -/
theorem newWithContext_inv (pipeOk xzInPath : Bool) (callers : List Frame)
    (c : Ctx) (w : Nat) (s : World) (o : Option XZWriter) (e : Option GoError)
    (s' : World)
    (h : NewWithContext pipeOk xzInPath callers (some c) w s = .ok ((o, e), s')) :
    (o = none ∧ e = some GoError.pipeCreate ∧ s' = s) ∨
    (o = none ∧ e = some GoError.execNotFound ∧
      s' = { s with
        pipeOpen := true, events := s.events ++ [Event.stdinPipeCreate] }) ∨
    (o = some ⟨fixedCmd w c⟩ ∧ e = none ∧
      s' = activateSharpEdgedFinalizer c
        (frameCallerSite :: frameNewWithContext :: callers)
        { s with
          pipeOpen := true, processRunning := true,
          events := (s.events ++ [Event.stdinPipeCreate]) ++ [Event.cmdStart] }) := by
  cases pipeOk with
  | false =>
    have h1 := Except.ok.inj h
    exact Or.inl ⟨(congrArg (fun q => q.1.1) h1).symm,
      (congrArg (fun q => q.1.2) h1).symm, (congrArg (fun q => q.2) h1).symm⟩
  | true =>
    cases xzInPath with
    | false =>
      have h1 := Except.ok.inj h
      exact Or.inr (Or.inl ⟨(congrArg (fun q => q.1.1) h1).symm,
        (congrArg (fun q => q.1.2) h1).symm, (congrArg (fun q => q.2) h1).symm⟩)
    | true =>
      have h1 := Except.ok.inj h
      exact Or.inr (Or.inr ⟨(congrArg (fun q => q.1.1) h1).symm,
        (congrArg (fun q => q.1.2) h1).symm, (congrArg (fun q => q.2) h1).symm⟩)

/-- C3: when creation fails — the executable cannot be located or the stdin
pipe cannot be created — `NewWithContext` returns a nil sink together with
the corresponding error, the process-running state is unchanged, and no
process start is recorded in the trace. -/
theorem newWithContext_failure_returns_nil_no_process
    (pipeOk xzInPath : Bool) (callers : List Frame) (c : Ctx) (w : Nat)
    (s : World) (hfail : pipeOk = false ∨ xzInPath = false) :
    ∃ e s', NewWithContext pipeOk xzInPath callers (some c) w s
        = .ok ((none, some e), s') ∧
      s'.processRunning = s.processRunning ∧
      (Event.cmdStart ∈ s'.events → Event.cmdStart ∈ s.events) := by
  cases pipeOk with
  | false =>
    exact ⟨GoError.pipeCreate, s, rfl, rfl, fun h => h⟩
  | true =>
    have hx : xzInPath = false := by
      cases hfail with
      | inl h => exact absurd h (by simp)
      | inr h => exact h
    subst hx
    refine ⟨GoError.execNotFound,
      { s with
        pipeOpen := true, events := s.events ++ [Event.stdinPipeCreate] },
      rfl, rfl, ?_⟩
    intro hmem
    simpa using hmem

/-- Witness for C3: creation with a failing pipe returns a nil sink, the pipe
error, and records no process start. -/
theorem newWithContext_failure_returns_nil_no_process_witness :
    ∃ e s', NewWithContext false true [] (some background) 0 World.init
        = .ok ((none, some e), s') ∧
      s'.processRunning = World.init.processRunning ∧
      (Event.cmdStart ∈ s'.events → Event.cmdStart ∈ World.init.events) :=
  newWithContext_failure_returns_nil_no_process false true [] background 0
    World.init (Or.inl rfl)

/-- The sink produced by a sample successful creation (destination id 0,
plain background context). -/
def sampleXZ : XZWriter := ⟨fixedCmd 0 background⟩

/-- The world after a sample successful creation from `World.init`, called
directly (not via `New`) from `main.go:10`. -/
def sampleCreatedWorld : World :=
  { World.init with
    pipeOpen := true, processRunning := true,
    finalizer := some ("main.go", 10),
    events := [Event.stdinPipeCreate, Event.cmdStart, Event.setFinal "main.go" 10] }

/-- C8: every successful creation configures the subprocess with the program
name "xz" and the same fixed argument list — quiet, compress, write to
stdout, best (maximum) compression, read from stdin — for every destination
writer, context and environment; no caller input changes these arguments. -/
theorem fixed_argument_list (pipeOk xzInPath : Bool) (callers : List Frame)
    (c : Ctx) (w : Nat) (s : World) (xz : XZWriter) (e : Option GoError)
    (s' : World)
    (h : NewWithContext pipeOk xzInPath callers (some c) w s
      = .ok ((some xz, e), s')) :
    xz.cmd.path = "xz" ∧
    xz.cmd.args = ["--quiet", "--compress", "--stdout", "--best", "-"] := by
  rcases newWithContext_inv pipeOk xzInPath callers c w s (some xz) e s' h with
    ⟨ho, -, -⟩ | ⟨ho, -, -⟩ | ⟨ho, -, -⟩
  · cases ho
  · cases ho
  · have hx : xz = ⟨fixedCmd w c⟩ := Option.some.inj ho
    subst hx
    exact ⟨rfl, rfl⟩

/-- Witness for C8 at a concrete successful creation. -/
theorem fixed_argument_list_witness :
    sampleXZ.cmd.path = "xz" ∧
    sampleXZ.cmd.args = ["--quiet", "--compress", "--stdout", "--best", "-"] :=
  fixed_argument_list true true [("main.go", 10)] background 0 World.init
    sampleXZ none sampleCreatedWorld rfl

/-- C9: no sink operation ever closes the caller-supplied destination writer:
creation, write and close all preserve the destination's state and never emit
a destination-close event, and creation only binds the destination as the
subprocess stdout. -/
theorem destination_never_closed (pipeOk xzInPath : Bool) (callers : List Frame)
    (ctx : Option Ctx) (w : Nat) (p : List Nat) (s : World) :
    (∀ o e s', NewWithContext pipeOk xzInPath callers ctx w s = .ok ((o, e), s') →
      s'.destClosed = s.destClosed ∧
      (Event.destClose ∈ s'.events → Event.destClose ∈ s.events) ∧
      ∀ xz, o = some xz → xz.cmd.stdout = some w) ∧
    ((Write p s).2.destClosed = s.destClosed ∧
      (Event.destClose ∈ (Write p s).2.events → Event.destClose ∈ s.events)) ∧
    ((Close s).2.destClosed = s.destClosed ∧
      (Event.destClose ∈ (Close s).2.events → Event.destClose ∈ s.events)) := by
  refine ⟨?_, ⟨pipeWriteOp_destClosed p s, ?_⟩, ⟨?_, ?_⟩⟩
  · intro o e s' h
    cases ctx with
    | none => exact absurd h (by simp [NewWithContext])
    | some c =>
      rcases newWithContext_inv pipeOk xzInPath callers c w s o e s' h with
        ⟨ho, -, hs⟩ | ⟨ho, -, hs⟩ | ⟨ho, -, hs⟩
      · subst hs; subst ho
        exact ⟨rfl, fun hm => hm, fun xz hxz => by cases hxz⟩
      · subst hs; subst ho
        refine ⟨rfl, ?_, fun xz hxz => by cases hxz⟩
        intro hm
        simpa using hm
      · subst hs; subst ho
        refine ⟨rfl, ?_, ?_⟩
        · intro hm
          simp only [activateSharpEdgedFinalizer] at hm
          simpa using hm
        · intro xz hxz
          have hx : xz = ⟨fixedCmd w c⟩ := (Option.some.inj hxz).symm
          subst hx
          rfl
  · intro hm
    rw [show (Write p s).2.events = s.events ++ [Event.pipeWrite p] from
      pipeWriteOp_events p s] at hm
    simpa using hm
  · show (cmdWaitOp (pipeCloseOp (deactivateSharpEdgedFinalizer s)).2).2.destClosed
      = s.destClosed
    rw [cmdWaitOp_destClosed, pipeCloseOp_destClosed]
    rfl
  · intro hm
    rw [close_events s] at hm
    simpa using hm

/-- Witness for C9: a concrete successful creation and a concrete close both
leave the destination untouched, and the sink binds writer 0 as stdout. -/
theorem destination_never_closed_witness :
    sampleCreatedWorld.destClosed = World.init.destClosed ∧
    sampleXZ.cmd.stdout = some 0 ∧
    (Close World.init).2.destClosed = World.init.destClosed := by
  have h := (destination_never_closed true true [("main.go", 10)] (some background)
    0 [] World.init).1 (some sampleXZ) none sampleCreatedWorld rfl
  have h2 := (destination_never_closed true true [("main.go", 10)] (some background)
    0 [] World.init).2.2.1
  exact ⟨h.1, h.2.2 sampleXZ rfl, h2⟩

/-- C10: `NewWithContext` panics exactly when the supplied context is nil: a
nil context panics with "nil Context" leaving the world unchanged (before any
process is spawned or pipe created), every non-nil context returns normally,
and `New` never panics because it always passes the package's own non-nil
`blankContext`. -/
theorem nil_context_panic_iff (pipeOk xzInPath : Bool) (callers : List Frame)
    (w : Nat) (s : World) :
    NewWithContext pipeOk xzInPath callers none w s = .error ("nil Context", s) ∧
    (∀ c, ∃ r, NewWithContext pipeOk xzInPath callers (some c) w s = .ok r) ∧
    (∃ r, New pipeOk xzInPath callers w s = .ok r) := by
  refine ⟨rfl, ?_, ?_⟩
  · intro c
    cases pipeOk with
    | false => exact ⟨_, rfl⟩
    | true =>
      cases xzInPath with
      | false => exact ⟨_, rfl⟩
      | true => exact ⟨_, rfl⟩
  · cases pipeOk with
    | false => exact ⟨_, rfl⟩
    | true =>
      cases xzInPath with
      | false => exact ⟨_, rfl⟩
      | true => exact ⟨_, rfl⟩

/-- C2: a sink created via `New` — or via `NewWithContext` with any context an
external caller can construct (one not carrying the package-private
discriminator) — and never closed keeps a pending finalizer recording the
file and line of the call to `New` resp. `NewWithContext`; collecting the
abandoned sink fires the fatal diagnostic reporting exactly that creation
site, and a second collection fires nothing, so the diagnostic fires exactly
once. -/
theorem abandoned_sink_fires_leak_diagnostic_once
    (file : String) (line : Nat) (rest : List Frame) (w : Nat) (s : World)
    (c : Ctx) (hc : calledByNew c = false) :
    (∃ xz s', New true true ((file, line) :: rest) w s
        = .ok ((some xz, none), s') ∧
      s'.finalizer = some (file, line) ∧
      (collectSink s').1 = some (finalizerMsg file line) ∧
      (collectSink (collectSink s').2).1 = none) ∧
    (∃ xz s', NewWithContext true true ((file, line) :: rest) (some c) w s
        = .ok ((some xz, none), s') ∧
      s'.finalizer = some (file, line) ∧
      (collectSink s').1 = some (finalizerMsg file line) ∧
      (collectSink (collectSink s').2).1 = none) := by
  constructor
  · exact ⟨⟨fixedCmd w blankContext⟩,
      { s with
        pipeOpen := true, processRunning := true,
        finalizer := some (file, line),
        events := ((s.events ++ [Event.stdinPipeCreate]) ++ [Event.cmdStart])
          ++ [Event.setFinal file line] },
      rfl, rfl, rfl, rfl⟩
  · have key : NewWithContext true true ((file, line) :: rest) (some c) w s
        = .ok ((some ⟨fixedCmd w c⟩, none),
          { s with
            pipeOpen := true, processRunning := true,
            finalizer := some (file, line),
            events := ((s.events ++ [Event.stdinPipeCreate]) ++ [Event.cmdStart])
              ++ [Event.setFinal file line] }) := by
      show Except.ok ((some (⟨fixedCmd w c⟩ : XZWriter), (none : Option GoError)),
        activateSharpEdgedFinalizer c
          (frameCallerSite :: frameNewWithContext :: (file, line) :: rest)
          { s with
            pipeOpen := true, processRunning := true,
            events := (s.events ++ [Event.stdinPipeCreate]) ++ [Event.cmdStart] }) = _
      simp only [activateSharpEdgedFinalizer, hc]
      rfl
    exact ⟨_, _, key, rfl, rfl, rfl⟩

/-- Witness for C2: a sink created via `NewWithContext` with a plain
background context from `main.go:10` and abandoned fires the diagnostic for
`main.go:10` exactly once. -/
theorem abandoned_sink_fires_leak_diagnostic_once_witness :
    ∃ xz s', NewWithContext true true [("main.go", 10)] (some background) 0
        World.init = .ok ((some xz, none), s') ∧
      s'.finalizer = some ("main.go", 10) ∧
      (collectSink s').1 = some (finalizerMsg "main.go" 10) ∧
      (collectSink (collectSink s').2).1 = none :=
  (abandoned_sink_fires_leak_diagnostic_once "main.go" 10 [] 0 World.init
    background rfl).2

end XZW
